import Mathlib

/-!
A shallow embedding of the NetFlow v9 decoding path of `netflow_collector.cpp`
and of the line handling of `ini.cpp` from the NetFlow_collector repository,
together with theorems settling the specification claims about them.

The decoder `processNetFlowV9Data` is modelled as a small-step machine:
the body of the outer `while (length > 0)` loop and of the inner data-record
loop are one step each, driven by a fuel counter, because the C++ loops can
in fact fail to terminate on some inputs.  The receive buffer is a total
function `Int → Nat` (the C++ code reads from a 64 KiB stack buffer, so bytes
at or past the received length are stale stack contents, not a trap), and the
machine records every byte offset it reads so that bounds safety is a
statement about the recorded read set.

`size_t` underflow: the C++ computes `flowsetDataLength = flowsetLength - 4`
in `size_t`.  When `flowsetLength < 4` this wraps to a value near `2^64`;
adding it to a pointer or subtracting it from the signed `length` then wraps
back, so the net effect on addresses and on `length` is exactly that of the
signed value `flowsetLength - 4`.  The embedding therefore carries
`flowsetDataLength` as the integer `flowsetLength - 4`.
-/

namespace NFC

/-- One byte of the receive buffer.  Values are reduced mod 256 so that an
arbitrary model buffer still yields `unsigned char` contents. -/
def byteAt (buf : Int → Nat) (i : Int) : Nat := buf i % 256

/-- `ntohs` of the two bytes at offset `i` (big-endian 16-bit read). -/
def be16 (buf : Int → Nat) (i : Int) : Nat :=
  byteAt buf i * 256 + byteAt buf (i + 1)

/-- `ntohl` of the four bytes at offset `i` (big-endian 32-bit read). -/
def be32 (buf : Int → Nat) (i : Int) : Nat :=
  ((byteAt buf i * 256 + byteAt buf (i + 1)) * 256 + byteAt buf (i + 2)) * 256
    + byteAt buf (i + 3)

/-- `inet_ntoa` applied to the four bytes of an `in_addr`, in memory order. -/
def dotted (a b c d : Nat) : String :=
  Nat.repr a ++ "." ++ Nat.repr b ++ "." ++ Nat.repr c ++ "." ++ Nat.repr d

/-- `NetFlowV9FieldSpecifier`: a `(type, length)` pair of `uint16_t`. -/
structure FieldSpec where
  type : Nat
  length : Nat
deriving DecidableEq

/-- `sonda.templates`, a `std::map<uint16_t, std::vector<NetFlowV9FieldSpecifier>>`.
Modelled as an association list where an insert prepends and a lookup takes
the first hit; this is observationally the map's insert-or-replace. -/
abbrev TemplateTable := List (Nat × List FieldSpec)

/-- `sonda.templates.find(id)` as an `Option`. -/
def lookupTemplate (t : TemplateTable) (id : Nat) : Option (List FieldSpec) :=
  (t.find? (fun e => e.1 == id)).map (fun e => e.2)

/-- `sonda.templates[id] = fields` (insert-or-replace). -/
def setTemplate (t : TemplateTable) (id : Nat) (fs : List FieldSpec) : TemplateTable :=
  (id, fs) :: t

/-- `recordLength`: the sum of the declared field lengths of a template. -/
def recordWidth (fs : List FieldSpec) : Nat := (fs.map (fun f => f.length)).sum

/-- `FlowData` (netflow_collector.cpp).  The `std::string` members are
default-constructed to `""`; the numeric members of a default-constructed
`FlowData` are left uninitialised by the C++ code, so the machine is
parameterised by a `JunkInit` supplying their initial indeterminate values. -/
structure FlowData where
  SourceIP : String
  DestinationIP : String
  SourcePort : Int
  DestinationPort : Int
  Protocol : Nat
  PacketCount : Nat
  ByteCount : Nat
  FlowStart : String
  FlowEnd : String
  SourceSond : String
deriving DecidableEq

/-- The indeterminate initial values of the uninitialised numeric members of
a default-constructed `FlowData`. -/
structure JunkInit where
  sp : Int
  dp : Int
  proto : Nat
  pc : Nat
  bc : Nat
deriving DecidableEq

/-- `FlowData flowData;` — default construction: strings are `""`, numeric
members take whatever happens to be in their stack slots. -/
def freshFlow (j : JunkInit) : FlowData :=
  { SourceIP := "", DestinationIP := "", SourcePort := j.sp,
    DestinationPort := j.dp, Protocol := j.proto % 256,
    PacketCount := j.pc % 2 ^ 32, ByteCount := j.bc % 2 ^ 32,
    FlowStart := "", FlowEnd := "", SourceSond := "" }

/-- The `for (int i = 0; i < fieldCount; ++i)` loop reading field
specifiers: returns the parsed fields and the list of byte offsets read. -/
def readFields (buf : Int → Nat) (p : Int) : Nat → List FieldSpec × List Int
  | 0 => ([], [])
  | k + 1 =>
    let f : FieldSpec := ⟨be16 buf p, be16 buf (p + 2)⟩
    let r := readFields buf (p + 4) k
    (f :: r.1, [p, p + 1, p + 2, p + 3] ++ r.2)

/-- The `while (templatePtr < ptr + flowsetDataLength)` loop of the template
FlowSet branch.  Each iteration advances the pointer by `4 + 4·field_count`
bytes, so the iteration count is bounded by the (nonnegative part of the)
pointer range; the structural `fuel` argument is always called with at least
that bound and therefore never cuts the loop short.  Returns the updated
template table and the byte offsets read. -/
def parseTemplates (buf : Int → Nat) :
    Nat → Int → Int → TemplateTable → TemplateTable × List Int
  | 0, _, _, tbl => (tbl, [])
  | fuel + 1, tPtr, endPtr, tbl =>
    if tPtr < endPtr then
      let templateID := be16 buf tPtr
      let fieldCount := be16 buf (tPtr + 2)
      let r := readFields buf (tPtr + 4) fieldCount
      let rest := parseTemplates buf fuel (tPtr + 4 + 4 * (fieldCount : Int)) endPtr
        (setTemplate tbl templateID r.1)
      (rest.1, [tPtr, tPtr + 1, tPtr + 2, tPtr + 3] ++ r.2 ++ rest.2)
    else (tbl, [])

/-- The `for (auto& field : fields)` switch of the data-record loop (the
field materializer).  Each case reads through a fixed-size cast — 4 bytes
for IPs and 32-bit counters, 2 for ports, 1 for the protocol — regardless of
the declared field length, and the offset advances by `field.length`.
Returns the updated record and the byte offsets read. -/
def matFields (buf : Int → Nat) (rp : Int) :
    Nat → List FieldSpec → FlowData → FlowData × List Int
  | _, [], fd => (fd, [])
  | off, f :: rest, fd =>
    let a : Int := rp + (off : Int)
    let step : FlowData × List Int :=
      if f.type = 8 then
        ({ fd with SourceIP := (dotted (byteAt buf a) (byteAt buf (a + 1))
            (byteAt buf (a + 2)) (byteAt buf (a + 3))) }, [a, a + 1, a + 2, a + 3])
      else if f.type = 12 then
        ({ fd with DestinationIP := (dotted (byteAt buf a) (byteAt buf (a + 1))
            (byteAt buf (a + 2)) (byteAt buf (a + 3))) }, [a, a + 1, a + 2, a + 3])
      else if f.type = 7 then
        ({ fd with SourcePort := (be16 buf a : Int) }, [a, a + 1])
      else if f.type = 11 then
        ({ fd with DestinationPort := (be16 buf a : Int) }, [a, a + 1])
      else if f.type = 4 then
        ({ fd with Protocol := byteAt buf a }, [a])
      else if f.type = 2 then
        ({ fd with PacketCount := be32 buf a }, [a, a + 1, a + 2, a + 3])
      else if f.type = 1 then
        ({ fd with ByteCount := be32 buf a }, [a, a + 1, a + 2, a + 3])
      else
        (fd, [])
    let r := matFields buf rp (off + f.length) rest step.1
    (r.1, step.2 ++ r.2)

/-- Where control currently sits: at the outer FlowSet-walk test, or inside
the data-record loop of one data FlowSet. -/
inductive Mode where
  | flowset : Mode
  | records (recPtr endPtr : Int) (fields : List FieldSpec) : Mode
deriving DecidableEq

/-- The machine state of `processNetFlowV9Data`: the walking pointer (as an
offset into the buffer), the remaining `ssize_t length`, the per-probe
template table, the records handed to `insertFlowData` in order, the
diagnostics written in order, the byte offsets read in order, and the control
mode. -/
structure Machine where
  ptr : Int
  len : Int
  templates : TemplateTable
  emitted : List FlowData
  diags : List String
  reads : List Int
  mode : Mode
deriving DecidableEq

/-- Result of one loop iteration: the function returned, or iterates again. -/
inductive Outcome where
  | done (m : Machine)
  | more (m : Machine)
deriving DecidableEq

/-- One iteration of `processNetFlowV9Data`'s loops.  In `flowset` mode this
is one iteration of `while (length > 0)` (including its exit tests); in
`records` mode it is one test-and-iteration of
`while (recordPtr + recordLength <= ptr + flowsetDataLength)`. -/
def step (buf : Int → Nat) (probe : String) (junk : JunkInit) (m : Machine) : Outcome :=
  match m.mode with
  | .flowset =>
    if m.len ≤ 0 then .done m
    else if m.len < 4 then
      .done { m with diags := m.diags ++ ["Incomplete FlowSet header."] }
    else
      let flowsetID := be16 buf m.ptr
      let flowsetLength := be16 buf (m.ptr + 2)
      let rds := m.reads ++ [m.ptr, m.ptr + 1, m.ptr + 2, m.ptr + 3]
      let p := m.ptr + 4
      let len := m.len - 4
      if (flowsetLength : Int) > len + 4 then
        .done { m with
          reads := rds,
          diags := (m.diags ++ ["FlowSet length exceeds remaining packet length."]) }
      else
        let fsdl : Int := (flowsetLength : Int) - 4
        if flowsetID = 0 then
          let r := parseTemplates buf fsdl.toNat p (p + fsdl) m.templates
          .more { m with
            ptr := p + fsdl, len := len - fsdl,
            templates := r.1, reads := rds ++ r.2, mode := .flowset }
        else if 255 < flowsetID then
          match lookupTemplate m.templates flowsetID with
          | none =>
            .more { m with
              ptr := p + fsdl, len := len - fsdl, reads := rds,
              diags := (m.diags ++ ["Unknown template ID: " ++ Nat.repr flowsetID]),
              mode := .flowset }
          | some fields =>
            .more { m with
              ptr := p, len := len, reads := rds,
              mode := .records p (p + fsdl) fields }
        else
          .more { m with
            ptr := p + fsdl, len := len - fsdl, reads := rds,
            mode := .flowset }
  | .records recPtr endPtr fields =>
    let W : Nat := recordWidth fields
    if recPtr + (W : Int) ≤ endPtr then
      let r := matFields buf recPtr 0 fields (freshFlow junk)
      let fd := { r.1 with SourceSond := probe }
      .more { m with
        emitted := m.emitted ++ [fd], reads := m.reads ++ r.2,
        mode := .records (recPtr + (W : Int)) endPtr fields }
    else
      .more { m with ptr := endPtr, len := m.len - (endPtr - m.ptr), mode := .flowset }

/-- Run the machine for at most `fuel` iterations; `none` means the loops
were still running when the fuel ran out. -/
def run (buf : Int → Nat) (probe : String) (junk : JunkInit) :
    Nat → Machine → Option Machine
  | 0, _ => none
  | fuel + 1, m =>
    match step buf probe junk m with
    | .done s => some s
    | .more m' => run buf probe junk fuel m'

/-- The state on entry of the loop: the header has been skipped
(`ptr += sizeof(NetFlowV9Header)`, `length -= sizeof(...)`) and
`ntohs(header->count)` has already read the bytes at offsets 2 and 3. -/
def initMachine (n : Int) (tbl : TemplateTable) : Machine :=
  { ptr := 20, len := n - 20, templates := tbl, emitted := [], diags := [],
    reads := [2, 3], mode := .flowset }

/-- `processNetFlowV9Data(buffer, n, sonda)` on a datagram of received length
`n`, with the probe's template table `tbl` and configured name `probe`,
run with the given iteration fuel. -/
def processNetFlowV9Data (buf : Int → Nat) (n : Int) (tbl : TemplateTable)
    (probe : String) (junk : JunkInit) (fuel : Nat) : Option Machine :=
  run buf probe junk fuel (initMachine n tbl)

/-- `j` consecutive iterations, all of which continue the loop. -/
def iterMore (buf : Int → Nat) (probe : String) (junk : JunkInit) :
    Nat → Machine → Option Machine
  | 0, m => some m
  | j + 1, m =>
    match step buf probe junk m with
    | .done _ => none
    | .more m' => iterMore buf probe junk j m'

/-!
Reference walkers over the FlowSet structure of a datagram.  They follow the
specification's description of a datagram as a sequence of FlowSets, each at
least 4 bytes long and exactly tiling the bytes after the 20-byte header.
Every walker is indexed by a structural fuel; since each FlowSet occupies at
least 4 bytes, a fuel equal to the remaining byte count is always enough, and
the well-formedness walkers simply reject anything deeper than their fuel.
-/

/-- The body of a template FlowSet is exactly tiled by complete template
records: each record's 4-byte header and its `field_count` 4-byte field
specifiers lie inside the body, with no bytes left over. -/
def wfTemplateBody (buf : Int → Nat) : Nat → Int → Nat → Bool
  | 0, _, rem => decide (rem = 0)
  | fuel + 1, p, rem =>
    if rem = 0 then true
    else if rem < 4 then false
    else
      let fc := be16 buf (p + 2)
      if 4 + 4 * fc ≤ rem then
        wfTemplateBody buf fuel (p + 4 + 4 * (fc : Int)) (rem - (4 + 4 * fc))
      else false

/-- The template records declared in a template FlowSet body, in order:
`(template_id, field list)` for each record. -/
def templateRecords (buf : Int → Nat) : Nat → Int → Nat → List (Nat × List FieldSpec)
  | 0, _, _ => []
  | fuel + 1, p, rem =>
    if rem = 0 then []
    else if rem < 4 then []
    else
      let fc := be16 buf (p + 2)
      if 4 + 4 * fc ≤ rem then
        (be16 buf p, (readFields buf (p + 4) fc).1) ::
          templateRecords buf fuel (p + 4 + 4 * (fc : Int)) (rem - (4 + 4 * fc))
      else []

/-- The template table produced by processing one template FlowSet body,
exactly as the code does it. -/
def installBody (buf : Int → Nat) (p fsdl : Int) (tbl : TemplateTable) : TemplateTable :=
  (parseTemplates buf fsdl.toNat p (p + fsdl) tbl).1

/-- The bytes from offset `p` parse as a sequence of FlowSets, each with
`length ≥ 4` and `length ≤` the bytes remaining, tiling `len` exactly. -/
def wfFlowSets (buf : Int → Nat) : Nat → Int → Int → Bool
  | 0, _, len => decide (len = 0)
  | fl + 1, p, len =>
    if len = 0 then true
    else if len < 4 then false
    else
      let L : Int := be16 buf (p + 2)
      if 4 ≤ L ∧ L ≤ len then wfFlowSets buf fl (p + L) (len - L) else false

/-- Every template FlowSet body in the walk is exactly tiled by complete
template records (`wfTemplateBody`). -/
def wfBodies (buf : Int → Nat) : Nat → Int → Int → Bool
  | 0, _, _ => true
  | fl + 1, p, len =>
    if len = 0 then true
    else if len < 4 then true
    else
      let id := be16 buf p
      let L : Int := be16 buf (p + 2)
      if 4 ≤ L ∧ L ≤ len then
        (if id = 0 then wfTemplateBody buf (L - 4).toNat (p + 4) (L - 4).toNat else true)
          && wfBodies buf fl (p + L) (len - L)
      else true

/-- Walk the FlowSets, mimicking the code's evolving template table, and
check each data FlowSet: when `strict`, its id must be in the table at that
moment; a template found in the table must always have positive width
(otherwise the code's record loop never terminates). -/
def walkOk (buf : Int → Nat) (strict : Bool) :
    Nat → Int → Int → TemplateTable → Bool
  | 0, _, _, _ => true
  | fl + 1, p, len, tbl =>
    if len = 0 then true
    else if len < 4 then true
    else
      let id := be16 buf p
      let L : Int := be16 buf (p + 2)
      if 4 ≤ L ∧ L ≤ len then
        if id = 0 then
          walkOk buf strict fl (p + L) (len - L) (installBody buf (p + 4) (L - 4) tbl)
        else if 255 < id then
          match lookupTemplate tbl id with
          | none => !strict && walkOk buf strict fl (p + L) (len - L) tbl
          | some fs => decide (0 < recordWidth fs) && walkOk buf strict fl (p + L) (len - L) tbl
        else walkOk buf strict fl (p + L) (len - L) tbl
      else true

/-- The specification's record count: the sum over data FlowSets `F` of
`⌊(F.length - 4) / W⌋`, where `W` is the width of the template governing `F`
in the table as it stands when `F` is reached. -/
def countSpec (buf : Int → Nat) : Nat → Int → Int → TemplateTable → Nat
  | 0, _, _, _ => 0
  | fl + 1, p, len, tbl =>
    if len = 0 then 0
    else if len < 4 then 0
    else
      let id := be16 buf p
      let L : Int := be16 buf (p + 2)
      if 4 ≤ L ∧ L ≤ len then
        if id = 0 then
          countSpec buf fl (p + L) (len - L) (installBody buf (p + 4) (L - 4) tbl)
        else if 255 < id then
          match lookupTemplate tbl id with
          | none => countSpec buf fl (p + L) (len - L) tbl
          | some fs => (L - 4).toNat / recordWidth fs + countSpec buf fl (p + L) (len - L) tbl
        else countSpec buf fl (p + L) (len - L) tbl
      else 0

/-- The template table after the whole walk: the fold of `installBody` over
the template FlowSets, other FlowSets leaving the table alone. -/
def installAll (buf : Int → Nat) : Nat → Int → Int → TemplateTable → TemplateTable
  | 0, _, _, tbl => tbl
  | fl + 1, p, len, tbl =>
    if len = 0 then tbl
    else if len < 4 then tbl
    else
      let id := be16 buf p
      let L : Int := be16 buf (p + 2)
      if 4 ≤ L ∧ L ≤ len then
        if id = 0 then
          installAll buf fl (p + L) (len - L) (installBody buf (p + 4) (L - 4) tbl)
        else installAll buf fl (p + L) (len - L) tbl
      else tbl

/-- All template records declared by the datagram's template FlowSets, in
order of appearance. -/
def allTemplateRecords (buf : Int → Nat) : Nat → Int → Int → List (Nat × List FieldSpec)
  | 0, _, _ => []
  | fl + 1, p, len =>
    if len = 0 then []
    else if len < 4 then []
    else
      let id := be16 buf p
      let L : Int := be16 buf (p + 2)
      if 4 ≤ L ∧ L ≤ len then
        if id = 0 then
          templateRecords buf (L - 4).toNat (p + 4) (L - 4).toNat
            ++ allTemplateRecords buf fl (p + L) (len - L)
        else allTemplateRecords buf fl (p + L) (len - L)
      else []

/-- The latest (last-occurring) definition of `id` among a list of template
records, if any. -/
def latestDef (recs : List (Nat × List FieldSpec)) (id : Nat) : Option (List FieldSpec) :=
  match recs with
  | [] => none
  | r :: rs =>
    match latestDef rs id with
    | some fs => some fs
    | none => if r.1 = id then some r.2 else none

end NFC

/-!
Shallow embedding of `INIParser::parse` (ini.cpp): per-line processing of
comment stripping, whitespace trimming, section headers and `key = value`
pairs, folded over the file's lines.
-/

namespace INI

/-- The whitespace set `" \t\r\n"` used by the trimming calls. -/
def isWsChar (c : Char) : Bool := c == ' ' || c == '\t' || c == '\r' || c == '\n'

/-- `erase(0, find_first_not_of(ws))` followed by
`erase(find_last_not_of(ws) + 1)`: trim both ends. -/
def trimChars (s : List Char) : List Char :=
  ((s.dropWhile isWsChar).reverse.dropWhile isWsChar).reverse

/-- `line.substr(0, line.find_first_of(";#"))`: drop everything from the
first `;` or `#` onward (the whole line is kept when neither occurs). -/
def stripComment (s : List Char) : List Char :=
  s.takeWhile (fun c => !(c == ';' || c == '#'))

/-- `data`, the nested `unordered_map<string, unordered_map<string, string>>`,
modelled as an association list keyed by `(section, key)` where an insert
prepends and a lookup takes the first hit (observationally the maps'
insert-or-replace). -/
abbrev IniData := List ((String × String) × String)

/-- `data[section][key]` as an `Option`. -/
def lookupKV (d : IniData) (sec k : String) : Option String :=
  (d.find? (fun e => e.1.1 == sec && e.1.2 == k)).map (fun e => e.2)

/-- `data[currentSection][key] = value`. -/
def setKV (d : IniData) (sec k v : String) : IniData :=
  ((sec, k), v) :: d

/-- One iteration of the `while (std::getline(file, line))` loop: the state
is `(currentSection, data)`. -/
def processLine (st : String × IniData) (line : String) : String × IniData :=
  let l := trimChars (stripComment line.data)
  if l = [] then st
  else if l.head? == some '[' && l.getLast? == some ']' then
    (⟨(l.drop 1).dropLast⟩, st.2)
  else
    match l.findIdx? (fun c => c == '=') with
    | none => st
    | some i =>
      let key := trimChars (l.take i)
      let value := trimChars (l.drop (i + 1))
      (st.1, setKV st.2 st.1 ⟨key⟩ ⟨value⟩)

/-- `INIParser::parse` on the file's lines, starting from an empty current
section and empty data. -/
def parseLines (lines : List String) : IniData :=
  (lines.foldl processLine ("", [])).2

end INI

/-!
Concrete inputs used by the counterexample, bug-witnessing and witness
theorems below.
-/

namespace NFC

/-- A buffer holding the given received bytes, zero elsewhere. -/
def bufOf (bs : List Nat) : Int → Nat :=
  fun i => if 0 ≤ i then bs.getD i.toNat 0 else 0

/-- Indeterminate initial values that happen to be zero. -/
def junk0 : JunkInit := ⟨0, 0, 0, 0, 0⟩

/-- An all-zero buffer: for C2, offsets 20–23 then read as a FlowSet header
with `flowset_id = 0` and `length = 0`. -/
def bufZero : Int → Nat := fun _ => 0

/-- C3 counterexample bytes: 20-byte header, then a template FlowSet
(id 0, length 12) declaring template 256 with one field `(type 4, length 0)`
— total width 0 — then a data FlowSet (id 256, length 4). -/
def bytesC3x : List Nat :=
  [0, 9, 0, 2, 0, 0, 0, 0, 0, 0, 0, 0, 0, 0, 0, 0, 0, 0, 0, 0,
   0, 0, 0, 12, 1, 0, 0, 1, 0, 4, 0, 0,
   1, 0, 0, 4]

def bufC3x : Int → Nat := bufOf bytesC3x

/-- The record the machine emits forever on `bytesC3x`. -/
def fdC3x : FlowData :=
  { SourceIP := "", DestinationIP := "", SourcePort := 0, DestinationPort := 0,
    Protocol := 0, PacketCount := 0, ByteCount := 0, FlowStart := "",
    FlowEnd := "", SourceSond := "p" }

/-- The machine state after the two FlowSet iterations on `bytesC3x`: about
to run the data-record loop with a zero-width template. -/
def mC3x : Machine :=
  { ptr := 36, len := 0, templates := [(256, [⟨4, 0⟩])], emitted := [], diags := [],
    reads := [2, 3, 20, 21, 22, 23, 24, 25, 26, 27, 28, 29, 30, 31, 32, 33, 34, 35],
    mode := .records 36 36 [⟨4, 0⟩] }

/-- C3 witness bytes: header, template FlowSet (id 0, length 12) declaring
template 256 with one field `(type 4, length 1)` (width 1), then a data
FlowSet (id 256, length 6) whose 2-byte body holds two records. -/
def bytesC3w : List Nat :=
  [0, 9, 0, 3, 0, 0, 0, 0, 0, 0, 0, 0, 0, 0, 0, 0, 0, 0, 0, 0,
   0, 0, 0, 12, 1, 0, 0, 1, 0, 4, 0, 1,
   1, 0, 0, 6, 17, 6]

def bufC3w : Int → Nat := bufOf bytesC3w

/-- C4 counterexample bytes: header, then one template FlowSet (id 0,
length 14) whose body holds one complete record (template 300, one field
`(type 4, length 1)`) followed by 2 bytes of padding `01 F4` (= 500). -/
def bytesC4x : List Nat :=
  [0, 9, 0, 1, 0, 0, 0, 0, 0, 0, 0, 0, 0, 0, 0, 0, 0, 0, 0, 0,
   0, 0, 0, 14, 1, 44, 0, 1, 0, 4, 0, 1, 1, 244]

def bufC4x : Int → Nat := bufOf bytesC4x

/-- The table the C4 counterexample datagram is decoded against: it already
holds template 500. -/
def tblC4 : TemplateTable := [(500, [⟨4, 1⟩])]

/-- C4 witness bytes: header, then one template FlowSet (id 0, length 20)
declaring template 270 twice — first with field `(8,4)`, then with field
`(4,1)` — so the latest definition must win. -/
def bytesC4w : List Nat :=
  [0, 9, 0, 2, 0, 0, 0, 0, 0, 0, 0, 0, 0, 0, 0, 0, 0, 0, 0, 0,
   0, 0, 0, 20, 1, 14, 0, 1, 0, 8, 0, 4, 1, 14, 0, 1, 0, 4, 0, 1]

def bufC4w : Int → Nat := bufOf bytesC4w

/-- The table the C4 witness datagram is decoded against: an unrelated
template 400 that the datagram must leave unchanged. -/
def tblC4w : TemplateTable := [(400, [⟨7, 2⟩])]

/-- C5 bytes: header, then a FlowSet header with `flowset_id = 0` and
`length = 1` (less than 4), followed by 253 zero bytes.  The decoder slides
back 3 bytes and re-reads offsets 21–24 as the next FlowSet header, parsing
the zero bytes as a template FlowSet that installs template id 0. -/
def bufC5 : Int → Nat := fun i => if i = 23 then 1 else 0

/-- C6 bytes: header, then one template FlowSet (id 0, length 16) whose body
holds a record with `template_id = 100` (below 256) and one with
`template_id = 256` but `field_count = 0`. -/
def bytesC6 : List Nat :=
  [0, 9, 0, 2, 0, 0, 0, 0, 0, 0, 0, 0, 0, 0, 0, 0, 0, 0, 0, 0,
   0, 0, 0, 16, 0, 100, 0, 1, 0, 4, 0, 1, 1, 0, 0, 0]

def bufC6 : Int → Nat := bufOf bytesC6

/-- C7 witness buffer: at offset 20 a FlowSet header with id 300 and
length 8. -/
def bufC7 : Int → Nat := bufOf
  [0, 9, 0, 1, 0, 0, 0, 0, 0, 0, 0, 0, 0, 0, 0, 0, 0, 0, 0, 0,
   1, 44, 0, 8, 0, 0, 0, 0]

/-- C7 witness machine: at the FlowSet walk with 8 bytes remaining and an
empty template table. -/
def mC7 : Machine :=
  { ptr := 20, len := 8, templates := [], emitted := [], diags := [],
    reads := [2, 3], mode := .flowset }

/-- C8 record bytes: a single 8-byte big-endian counter field holding
`0x0000000100000002`. -/
def bufC8 : Int → Nat := bufOf [0, 0, 0, 1, 0, 0, 0, 2]

/-- C9 bytes: header, template FlowSet (id 0, length 12) declaring template
260 with the single field `(type 4, length 1)`, then a data FlowSet
(id 260, length 5) holding one record whose protocol byte is 6. -/
def bytesC9 : List Nat :=
  [0, 9, 0, 2, 0, 0, 0, 0, 0, 0, 0, 0, 0, 0, 0, 0, 0, 0, 0, 0,
   0, 0, 0, 12, 1, 4, 0, 1, 0, 4, 0, 1,
   1, 4, 0, 5, 6]

def bufC9 : Int → Nat := bufOf bytesC9

/-- Nonzero indeterminate initial values witnessing that unset numeric
attributes are not zeroed. -/
def junkC9 : JunkInit := ⟨7, 9, 3, 11, 13⟩

/-- The record emitted for the C9 datagram: the protocol byte comes from the
data, every other numeric attribute keeps its indeterminate initial value. -/
def fdC9 : FlowData :=
  { SourceIP := "", DestinationIP := "", SourcePort := 7, DestinationPort := 9,
    Protocol := 6, PacketCount := 11, ByteCount := 13, FlowStart := "",
    FlowEnd := "", SourceSond := "probe1" }

end NFC


/-!
Composition lemmas for the fuel-indexed runner.
-/

namespace NFC

theorem run_succ_more {buf : Int → Nat} {probe : String} {junk : JunkInit}
    {m m' : Machine} (h : step buf probe junk m = .more m') (f : Nat) :
    run buf probe junk (f + 1) m = run buf probe junk f m' := by
  simp [run, h]

theorem run_succ_done {buf : Int → Nat} {probe : String} {junk : JunkInit}
    {m s : Machine} (h : step buf probe junk m = .done s) (f : Nat) :
    run buf probe junk (f + 1) m = some s := by
  simp [run, h]

theorem iterMore_run {buf : Int → Nat} {probe : String} {junk : JunkInit} :
    ∀ {j : Nat} {m m' : Machine}, iterMore buf probe junk j m = some m' →
      ∀ f : Nat, run buf probe junk (j + f) m = run buf probe junk f m' := by
  intro j
  induction j with
  | zero =>
    intro m m' h f
    simp [iterMore] at h
    simp [h]
  | succ j ih =>
    intro m m' h f
    rw [iterMore] at h
    cases hs : step buf probe junk m with
    | done s => rw [hs] at h; cases h
    | more m₁ =>
      rw [hs] at h
      have : j + 1 + f = (j + f) + 1 := by omega
      rw [this, run_succ_more hs, ih h f]

-- The C2 self-loop: on an all-zero buffer a FlowSet header with
-- `length = 0` restores the pointer and remaining length of the iteration
-- that read it, so the walk never advances.
set_option maxRecDepth 4000 in
theorem stepZero_self (em : List FlowData) (dg : List String) (rd : List Int) :
    step bufZero "p" junk0 ⟨20, 4, [], em, dg, rd, .flowset⟩ =
      .more ⟨20, 4, [], em, dg, (rd ++ [20, 21, 22, 23]) ++ [], .flowset⟩ := rfl

theorem runZero_none : ∀ (f : Nat) (em : List FlowData) (dg : List String) (rd : List Int),
    run bufZero "p" junk0 f ⟨20, 4, [], em, dg, rd, .flowset⟩ = none := by
  intro f
  induction f with
  | zero => intro em dg rd; rfl
  | succ f ih =>
    intro em dg rd
    rw [run_succ_more (stepZero_self em dg rd)]
    exact ih em dg ((rd ++ [20, 21, 22, 23]) ++ [])

-- The C3 self-loop: a data FlowSet governed by a template of width 0 never
-- advances `recordPtr`, emitting the same record forever.
set_option maxRecDepth 4000 in
theorem stepC3x_self (mp ml : Int) (tbl : TemplateTable) (em : List FlowData)
    (dg : List String) (rd : List Int) :
    step bufC3x "p" junk0 ⟨mp, ml, tbl, em, dg, rd, .records 36 36 [⟨4, 0⟩]⟩ =
      .more ⟨mp, ml, tbl, em ++ [fdC3x], dg, rd ++ [(36 : Int)], .records 36 36 [⟨4, 0⟩]⟩ := rfl

theorem runC3x_none : ∀ (f : Nat) (mp ml : Int) (tbl : TemplateTable)
    (em : List FlowData) (dg : List String) (rd : List Int),
    run bufC3x "p" junk0 f ⟨mp, ml, tbl, em, dg, rd, .records 36 36 [⟨4, 0⟩]⟩ = none := by
  intro f
  induction f with
  | zero => intro mp ml tbl em dg rd; rfl
  | succ f ih =>
    intro mp ml tbl em dg rd
    rw [run_succ_more (stepC3x_self mp ml tbl em dg rd)]
    exact ih mp ml tbl (em ++ [fdC3x]) dg (rd ++ [(36 : Int)])

end NFC

/-!
Claim theorems settled by direct evaluation of the embedded code, plus the
two non-termination results.
-/

namespace NFC

/-- Claim C1 (refuted; code bug): the v9 decode operation is claimed never to
read a byte at or beyond the datagram's received length.  The code reads
`ntohs(header->count)` — offsets 2 and 3 — unconditionally, so a 2-byte
datagram already makes it read at offsets 2 and 3, at and past its received
length. -/
theorem C1_header_read_past_length :
    (processNetFlowV9Data (fun _ => 0) 2 [] "p" junk0 1).map (fun s => s.reads) = some [2, 3]
    ∧ ¬ (∀ i ∈ [(2 : Int), 3], i < 2) := by
  constructor
  · decide
  · decide

/-- Claim C2 (refuted; code bug): the decoder is claimed to terminate on
every byte sequence.  On a 24-byte datagram whose single FlowSet header
carries `length = 0`, the `size_t` underflow of `flowsetLength - 4` moves the
walk pointer back to the very FlowSet header just read and restores the
remaining length, so the loop never terminates: no amount of fuel makes the
run finish. -/
theorem C2_nonterminating_on_flowset_length_zero :
    ∀ fuel : Nat, processNetFlowV9Data bufZero 24 [] "p" junk0 fuel = none := by
  intro fuel
  rw [processNetFlowV9Data,
    show initMachine 24 ([] : TemplateTable) = ⟨20, 4, [], [], [], [2, 3], .flowset⟩ from rfl]
  exact runZero_none fuel [] [] [2, 3]

/-- Claim C3 counterexample: the claim's record-count formula is asserted for
every datagram whose data FlowSets all refer to installed templates.  This
datagram installs template 256 with a single field of declared length 0
(total width 0) and then sends a data FlowSet with id 256: the hypothesis
holds, but the record loop never advances `recordPtr`, so decoding never
completes and no finite record count exists. -/
theorem C3_zero_width_loop_counterexample :
    (∃ (fuel : Nat) (s : Machine),
        processNetFlowV9Data bufC3x 36 [] "p" junk0 fuel = some s) = False := by
  refine eq_false ?_
  rintro ⟨fuel, s, h⟩
  match fuel with
  | 0 =>
    rw [show processNetFlowV9Data bufC3x 36 [] "p" junk0 0 = none from by decide] at h
    cases h
  | 1 =>
    rw [show processNetFlowV9Data bufC3x 36 [] "p" junk0 1 = none from by decide] at h
    cases h
  | (f + 2) =>
    have h2 : iterMore bufC3x "p" junk0 2 (initMachine 36 []) = some mC3x := by decide
    rw [processNetFlowV9Data, show f + 2 = 2 + f from by omega, iterMore_run h2 f] at h
    rw [show mC3x = ⟨36, 0, [(256, [⟨4, 0⟩])], [], [],
      [2, 3, 20, 21, 22, 23, 24, 25, 26, 27, 28, 29, 30, 31, 32, 33, 34, 35],
      .records 36 36 [⟨4, 0⟩]⟩ from rfl] at h
    rw [runC3x_none] at h
    cases h

/-- Claim C4 counterexample: the template table is claimed to change only at
ids the datagram's template FlowSets (re)define.  Here the template FlowSet
body holds one complete record defining id 300 followed by 2 bytes of
padding; the code misreads the padding as another record header, reads its
field count from beyond the received bytes, and installs an empty template
over the pre-existing entry 500 — an id the datagram never defines — while
decoding completes without any diagnostic. -/
theorem C4_padding_clobbers_unrelated_entry :
    (processNetFlowV9Data bufC4x 34 tblC4 "p" junk0 3).map
        (fun s => (lookupTemplate s.templates 500, s.diags)) = some (some [], [])
    ∧ lookupTemplate tblC4 500 = some [⟨4, 1⟩] := by
  constructor
  · decide
  · decide

/-- Claim C5 (refuted; code bug): on reading a FlowSet header whose length
field is less than 4 the decoder is claimed to stop with a diagnostic and
leave the rest of the datagram alone.  On this datagram the first FlowSet
header carries `length = 1`: the decoder does not stop — the underflowed
data length slides the walk back to offset 21, where the following zero
bytes parse as a 256-byte template FlowSet that installs template id 0 —
and decoding finishes with no diagnostic at all. -/
theorem C5_short_flowset_length_not_rejected :
    (processNetFlowV9Data bufC5 277 [] "p" junk0 4).map
        (fun s => (lookupTemplate s.templates 0, s.diags, s.emitted)) =
      some (some [], [], [])
    ∧ be16 bufC5 22 = 1 := by
  constructor
  · decide
  · decide

/-- Claim C6 (refuted; code bug): template records with `template_id < 256`
or `field_count = 0` are claimed to be skipped with a diagnostic.  The code
has no such checks: a record with id 100 and a record with id 256 but zero
fields are both installed, and no diagnostic is emitted. -/
theorem C6_invalid_template_records_installed :
    (processNetFlowV9Data bufC6 36 [] "p" junk0 3).map
        (fun s => (lookupTemplate s.templates 100, lookupTemplate s.templates 256, s.diags)) =
      some (some [⟨4, 1⟩], some [], []) := by decide

/-- Claim C8 (refuted; code bug): for a counter field of declared length `L`
the materializer is claimed to read exactly `L` bytes big-endian and project
the low-order bits.  For the 8-byte field `0x0000000100000002` the code reads
only the 4 bytes at the field's offset — the HIGH-order half, yielding 1
rather than the low half 2 — though the offset does advance by the declared
8, as the following 1-byte protocol field read at offset 8 shows. -/
theorem C8_counter_read_is_fixed_four_bytes :
    matFields bufC8 0 0 [⟨1, 8⟩, ⟨4, 1⟩] (freshFlow junk0) =
      ({ freshFlow junk0 with ByteCount := 1, Protocol := 0 }, [0, 1, 2, 3, 8]) := by
  decide

/-- Claim C9 (refuted; code bug): attributes whose field type is absent from
the template are claimed to take documented zero/empty defaults.  The C++
default-constructs `FlowData` without initialising its numeric members, so
they keep indeterminate stack contents: decoding a record under a template
with only a protocol field emits a record whose ports and counters equal the
indeterminate initial values (7, 9, 11, 13 here), not 0.  The string
attributes are genuinely `""` and `probe_name` is the probe's name. -/
theorem C9_numeric_defaults_not_zeroed :
    (processNetFlowV9Data bufC9 37 [] "probe1" junkC9 6).map (fun s => s.emitted) =
      some [fdC9]
    ∧ fdC9.SourcePort ≠ 0 ∧ fdC9.SourceIP = "" ∧ fdC9.SourceSond = "probe1" := by
  refine ⟨by decide, by decide, rfl, rfl⟩

end NFC

namespace NFC

/-- Claim C7 (confirmed): a data FlowSet whose id is in `256..65535`, whose
length fits inside the remaining datagram, and whose id has no entry in the
template table makes the decoder append a diagnostic that begins with
"Unknown template ID", emit no record, leave the template table (and
already-emitted records) unchanged, and continue the walk at the next
FlowSet. -/
theorem C7_unknown_template_flowset_skipped (buf : Int → Nat) (probe : String)
    (junk : JunkInit) (m : Machine)
    (hm : m.mode = .flowset)
    (h4 : 4 ≤ m.len)
    (hid : 256 ≤ be16 buf m.ptr)
    (hL : (be16 buf (m.ptr + 2) : Int) ≤ m.len)
    (hct : lookupTemplate m.templates (be16 buf m.ptr) = none) :
    step buf probe junk m = .more { m with
      ptr := m.ptr + (be16 buf (m.ptr + 2) : Int),
      len := m.len - (be16 buf (m.ptr + 2) : Int),
      reads := m.reads ++ [m.ptr, m.ptr + 1, m.ptr + 2, m.ptr + 3],
      diags := (m.diags ++ ["Unknown template ID: " ++ Nat.repr (be16 buf m.ptr)]),
      mode := .flowset }
    ∧ ∃ rest, "Unknown template ID: " ++ Nat.repr (be16 buf m.ptr) =
        "Unknown template ID" ++ rest := by
  obtain ⟨ptr, len, tpl, em, dg, rd, mode⟩ := m
  simp only at hm h4 hid hL hct
  subst hm
  refine ⟨?_, ⟨": " ++ Nat.repr (be16 buf ptr), ?_⟩⟩
  · have h1 : ¬ (len ≤ 0) := by omega
    have h2 : ¬ (len < 4) := by omega
    have h3 : ¬ ((be16 buf (ptr + 2) : Int) > len - 4 + 4) := by omega
    have h5 : ¬ (be16 buf ptr = 0) := by omega
    have h6 : 255 < be16 buf ptr := by omega
    simp only [step, h1, h2, h3, h5, h6, hct, if_false, if_true, ite_false, ite_true,
      if_neg, not_false_eq_true]
    congr 1
    simp only [Machine.mk.injEq, and_true, true_and]
    exact ⟨by omega, by omega⟩
  · rw [show ("Unknown template ID: " : String) = "Unknown template ID" ++ ": " from rfl,
      String.append_assoc]

end NFC

/-!
Lemmas about the INI line handling, leading to claim C10.
-/

namespace INI

theorem mem_trimChars {c : Char} : ∀ {s : List Char}, c ∈ trimChars s → c ∈ s := by
  intro s h
  unfold trimChars at h
  rw [List.mem_reverse] at h
  have h1 : c ∈ (s.dropWhile isWsChar).reverse :=
    (List.dropWhile_sublist isWsChar).mem h
  rw [List.mem_reverse] at h1
  exact (List.dropWhile_sublist isWsChar).mem h1

theorem mem_stripComment_ne {c : Char} {s : List Char} (h : c ∈ stripComment s) :
    ¬ c = ';' ∧ ¬ c = '#' := by
  have := List.mem_takeWhile_imp h
  simp only [Bool.not_eq_true', Bool.or_eq_false_iff, beq_eq_false_iff_ne] at this
  exact ⟨this.1, this.2⟩

theorem findIdx?_eq_none_of_not_mem :
    ∀ (l : List Char) (i : Nat), ('=' ∈ l → False) →
      List.findIdx? (fun c => c == '=') l i = none := by
  intro l
  induction l with
  | nil => intro i _; rfl
  | cons a l ih =>
    intro i h
    have ha : (a == '=') = false := by
      simp only [beq_eq_false_iff_ne, ne_eq]
      intro hEq
      exact h (hEq ▸ List.mem_cons_self a l)
    rw [List.findIdx?_cons, ha]
    simp only [Bool.false_eq_true, if_false, ite_false]
    exact ih (i + 1) (fun hm => h (List.mem_cons_of_mem a hm))

-- Every value stored by one `processLine` call, and hence every value in the
-- parsed data, draws its characters from the comment-stripped line.
theorem processLine_preserves_no_comment
    (st : String × IniData) (line : String)
    (hP : ∀ sec k v, lookupKV st.2 sec k = some v →
      (';' ∈ v.data → False) ∧ ('#' ∈ v.data → False)) :
    ∀ sec k v, lookupKV (processLine st line).2 sec k = some v →
      (';' ∈ v.data → False) ∧ ('#' ∈ v.data → False) := by
  intro sec k v hv
  simp only [processLine] at hv
  split at hv
  · exact hP sec k v hv
  · split at hv
    · exact hP sec k v hv
    · split at hv
      · exact hP sec k v hv
      · rename_i i hidx
        unfold setKV lookupKV at hv
        rw [List.find?_cons] at hv
        split at hv
        · rw [Option.map_some'] at hv
          cases hv
          constructor
          · intro hc
            have h1 : ';' ∈ trimChars
                ((trimChars (stripComment line.data)).drop (i + 1)) := hc
            have h2 : ';' ∈ trimChars (stripComment line.data) :=
              (List.drop_sublist (i + 1) _).mem (mem_trimChars h1)
            exact (mem_stripComment_ne (mem_trimChars h2)).1 rfl
          · intro hc
            have h1 : '#' ∈ trimChars
                ((trimChars (stripComment line.data)).drop (i + 1)) := hc
            have h2 : '#' ∈ trimChars (stripComment line.data) :=
              (List.drop_sublist (i + 1) _).mem (mem_trimChars h1)
            exact (mem_stripComment_ne (mem_trimChars h2)).2 rfl
        · exact hP sec k v (by simpa [lookupKV] using hv)

theorem foldl_preserves_no_comment :
    ∀ (lines : List String) (st : String × IniData),
      (∀ sec k v, lookupKV st.2 sec k = some v →
        (';' ∈ v.data → False) ∧ ('#' ∈ v.data → False)) →
      ∀ sec k v, lookupKV (lines.foldl processLine st).2 sec k = some v →
        (';' ∈ v.data → False) ∧ ('#' ∈ v.data → False) := by
  intro lines
  induction lines with
  | nil => intro st hP; exact hP
  | cons line rest ih =>
    intro st hP
    exact ih (processLine st line) (processLine_preserves_no_comment st line hP)

end INI

namespace NFC

/-- Claim C10 (confirmed): the INI parser discards everything from the first
`;` or `#` onward before splitting on `=`, so no parsed value can contain a
`;` or `#`; and a line in which no `=` survives the comment strip stores
nothing (it is silently dropped). -/
theorem C10_ini_comment_stripping :
    (∀ (lines : List String) (sec k v : String),
        INI.lookupKV (INI.parseLines lines) sec k = some v →
          (';' ∈ v.data → False) ∧ ('#' ∈ v.data → False))
    ∧ (∀ (st : String × INI.IniData) (line : String),
        ('=' ∈ INI.stripComment line.data → False) →
          (INI.processLine st line).2 = st.2) := by
  constructor
  · intro lines sec k v hv
    exact INI.foldl_preserves_no_comment lines ("", [])
      (by intro sec k v h; cases h) sec k v hv
  · intro st line hno
    have hfind : List.findIdx? (fun c => c == '=')
        (INI.trimChars (INI.stripComment line.data)) 0 = none :=
      INI.findIdx?_eq_none_of_not_mem _ 0 (fun hm => hno (INI.mem_trimChars hm))
    simp only [INI.processLine, hfind]
    split
    · rfl
    · split
      · rfl
      · rfl

/-- Witness for C10 at a concrete configuration: the line `k=v;secret`
parses to the value `v` (comment-free), and the line `password;123` stores
nothing. -/
theorem C10_ini_comment_stripping_witness :
    ((';' ∈ ("v" : String).data → False) ∧ ('#' ∈ ("v" : String).data → False))
    ∧ (INI.processLine ("", []) "password;123").2 = [] :=
  ⟨C10_ini_comment_stripping.1 ["k=v;secret"] "" "k" "v" (by decide),
   C10_ini_comment_stripping.2 ("", []) "password;123" (by decide)⟩

end NFC

namespace NFC

/-- Witness for C7: a data FlowSet with id 300 and length 8 against an empty
template table. -/
theorem C7_unknown_template_flowset_skipped_witness :
    step bufC7 "p" junk0 mC7 = .more { mC7 with
      ptr := mC7.ptr + (be16 bufC7 (mC7.ptr + 2) : Int),
      len := mC7.len - (be16 bufC7 (mC7.ptr + 2) : Int),
      reads := mC7.reads ++ [mC7.ptr, mC7.ptr + 1, mC7.ptr + 2, mC7.ptr + 3],
      diags := (mC7.diags ++ ["Unknown template ID: " ++ Nat.repr (be16 bufC7 mC7.ptr)]),
      mode := .flowset }
    ∧ ∃ rest, "Unknown template ID: " ++ Nat.repr (be16 bufC7 mC7.ptr) =
        "Unknown template ID" ++ rest :=
  C7_unknown_template_flowset_skipped bufC7 "p" junk0 mC7 rfl (by decide) (by decide)
    (by decide) (by decide)

end NFC

/-!
Simulation of the data-record loop and of the FlowSet walk, for claims C3
and C4.
-/

namespace NFC

theorem simRecords_exit (buf : Int → Nat) (probe : String) (junk : JunkInit)
    (recPtr endPtr : Int) (fs : List FieldSpec) (mp ml : Int) (tbl : TemplateTable)
    (em : List FlowData) (dg : List String) (rd : List Int)
    (hcond : ¬ (recPtr + ((recordWidth fs : Nat) : Int) ≤ endPtr)) :
    iterMore buf probe junk 1 ⟨mp, ml, tbl, em, dg, rd, .records recPtr endPtr fs⟩ =
      some ⟨endPtr, ml - (endPtr - mp), tbl, em, dg, rd, .flowset⟩ := by
  simp only [iterMore, step, hcond, ite_false, if_false]

theorem simRecords (buf : Int → Nat) (probe : String) (junk : JunkInit) :
    ∀ (k : Nat) (recPtr endPtr : Int) (fs : List FieldSpec) (mp ml : Int)
      (tbl : TemplateTable) (em : List FlowData) (dg : List String) (rd : List Int),
      0 < recordWidth fs → (endPtr - recPtr).toNat ≤ k →
      ∃ (j : Nat) (em' : List FlowData) (rd' : List Int),
        iterMore buf probe junk j ⟨mp, ml, tbl, em, dg, rd, .records recPtr endPtr fs⟩ =
          some ⟨endPtr, ml - (endPtr - mp), tbl, em ++ em', dg, rd', .flowset⟩ ∧
        em'.length = (endPtr - recPtr).toNat / recordWidth fs := by
  intro k
  induction k with
  | zero =>
    intro recPtr endPtr fs mp ml tbl em dg rd hW hk
    have hcond : ¬ (recPtr + ((recordWidth fs : Nat) : Int) ≤ endPtr) := by omega
    refine ⟨1, [], rd, ?_, ?_⟩
    · rw [List.append_nil]
      exact simRecords_exit buf probe junk recPtr endPtr fs mp ml tbl em dg rd hcond
    · have : (endPtr - recPtr).toNat = 0 := by omega
      simp [this]
  | succ k ih =>
    intro recPtr endPtr fs mp ml tbl em dg rd hW hk
    by_cases hcond : recPtr + ((recordWidth fs : Nat) : Int) ≤ endPtr
    · obtain ⟨j, em', rd', hiter, hlen⟩ :=
        ih (recPtr + (recordWidth fs : Int)) endPtr fs mp ml tbl
          (em ++ [{ (matFields buf recPtr 0 fs (freshFlow junk)).1 with SourceSond := probe }])
          dg (rd ++ (matFields buf recPtr 0 fs (freshFlow junk)).2)
          hW (by omega)
      refine ⟨j + 1,
        { (matFields buf recPtr 0 fs (freshFlow junk)).1 with SourceSond := probe } :: em',
        rd', ?_, ?_⟩
      · have hstep : step buf probe junk ⟨mp, ml, tbl, em, dg, rd, .records recPtr endPtr fs⟩ =
            .more ⟨mp, ml, tbl,
              em ++ [{ (matFields buf recPtr 0 fs (freshFlow junk)).1 with SourceSond := probe }],
              dg, rd ++ (matFields buf recPtr 0 fs (freshFlow junk)).2,
              .records (recPtr + ((recordWidth fs : Nat) : Int)) endPtr fs⟩ := by
          simp only [step, hcond, ite_true, if_true]
        rw [iterMore, hstep]
        rw [show em ++ ({ (matFields buf recPtr 0 fs (freshFlow junk)).1
              with SourceSond := probe } :: em')
            = (em ++ [{ (matFields buf recPtr 0 fs (freshFlow junk)).1
              with SourceSond := probe }]) ++ em' by simp]
        exact hiter
      · have hWD : recordWidth fs ≤ (endPtr - recPtr).toNat := by omega
        have hdiv := Nat.div_eq_sub_div hW hWD
        have hT : (endPtr - (recPtr + ((recordWidth fs : Nat) : Int))).toNat
            = (endPtr - recPtr).toNat - recordWidth fs := by omega
        rw [hdiv, List.length_cons, hlen, hT]
    · refine ⟨1, [], rd, ?_, ?_⟩
      · rw [List.append_nil]
        exact simRecords_exit buf probe junk recPtr endPtr fs mp ml tbl em dg rd hcond
      · have : (endPtr - recPtr).toNat < recordWidth fs := by omega
        rw [List.length_nil, Nat.div_eq_of_lt this]

end NFC

namespace NFC

theorem simFlowSets (buf : Int → Nat) (probe : String) (junk : JunkInit) :
    ∀ (fl : Nat) (p len : Int) (tbl : TemplateTable) (em : List FlowData)
      (dg : List String) (rd : List Int),
      wfFlowSets buf fl p len = true →
      walkOk buf false fl p len tbl = true →
      ∃ (fuel : Nat) (s : Machine),
        run buf probe junk fuel ⟨p, len, tbl, em, dg, rd, .flowset⟩ = some s ∧
        s.templates = installAll buf fl p len tbl ∧
        s.emitted.length = em.length + countSpec buf fl p len tbl := by
  intro fl
  induction fl with
  | zero =>
    intro p len tbl em dg rd hwf hwo
    have hlen : len = 0 := of_decide_eq_true hwf
    subst hlen
    refine ⟨1, ⟨p, 0, tbl, em, dg, rd, .flowset⟩, ?_, rfl, by simp [countSpec]⟩
    exact run_succ_done (by simp [step]) 0
  | succ fl ih =>
    intro p len tbl em dg rd hwf hwo
    by_cases h0 : len = 0
    · subst h0
      refine ⟨1, ⟨p, 0, tbl, em, dg, rd, .flowset⟩, ?_, ?_, ?_⟩
      · exact run_succ_done (by simp [step]) 0
      · simp [installAll]
      · simp [countSpec]
    · simp only [wfFlowSets] at hwf
      rw [if_neg h0] at hwf
      by_cases h4 : len < 4
      · rw [if_pos h4] at hwf; cases hwf
      rw [if_neg h4] at hwf
      by_cases hL : 4 ≤ ((be16 buf (p + 2) : Nat) : Int) ∧ ((be16 buf (p + 2) : Nat) : Int) ≤ len
      case neg => rw [if_neg hL] at hwf; cases hwf
      rw [if_pos hL] at hwf
      simp only [walkOk] at hwo
      rw [if_neg h0, if_neg h4, if_pos hL] at hwo
      have hle0 : ¬ (len ≤ 0) := by omega
      have hgt : ¬ (((be16 buf (p + 2) : Nat) : Int) > len - 4 + 4) := by omega
      by_cases hid0 : be16 buf p = 0
      · -- template FlowSet
        rw [if_pos hid0] at hwo
        have hwf' : wfFlowSets buf fl (p + 4 + (((be16 buf (p + 2) : Nat) : Int) - 4))
            (len - 4 - (((be16 buf (p + 2) : Nat) : Int) - 4)) = true := by
          rw [show p + 4 + (((be16 buf (p + 2) : Nat) : Int) - 4)
                = p + ((be16 buf (p + 2) : Nat) : Int) from by omega,
              show len - 4 - (((be16 buf (p + 2) : Nat) : Int) - 4)
                = len - ((be16 buf (p + 2) : Nat) : Int) from by omega]
          exact hwf
        have hwo' : walkOk buf false fl (p + 4 + (((be16 buf (p + 2) : Nat) : Int) - 4))
            (len - 4 - (((be16 buf (p + 2) : Nat) : Int) - 4))
            (installBody buf (p + 4) (((be16 buf (p + 2) : Nat) : Int) - 4) tbl) = true := by
          rw [show p + 4 + (((be16 buf (p + 2) : Nat) : Int) - 4)
                = p + ((be16 buf (p + 2) : Nat) : Int) from by omega,
              show len - 4 - (((be16 buf (p + 2) : Nat) : Int) - 4)
                = len - ((be16 buf (p + 2) : Nat) : Int) from by omega]
          exact hwo
        obtain ⟨f, s, hrun, htpl, hcnt⟩ := ih
          (p + 4 + (((be16 buf (p + 2) : Nat) : Int) - 4))
          (len - 4 - (((be16 buf (p + 2) : Nat) : Int) - 4))
          (installBody buf (p + 4) (((be16 buf (p + 2) : Nat) : Int) - 4) tbl)
          em dg
          ((rd ++ [p, p + 1, p + 2, p + 3]) ++
            (parseTemplates buf ((((be16 buf (p + 2) : Nat) : Int) - 4).toNat) (p + 4)
              (p + 4 + (((be16 buf (p + 2) : Nat) : Int) - 4)) tbl).2)
          hwf' hwo'
        have hstep : step buf probe junk ⟨p, len, tbl, em, dg, rd, .flowset⟩ =
            .more ⟨p + 4 + (((be16 buf (p + 2) : Nat) : Int) - 4),
              len - 4 - (((be16 buf (p + 2) : Nat) : Int) - 4),
              installBody buf (p + 4) (((be16 buf (p + 2) : Nat) : Int) - 4) tbl, em, dg,
              (rd ++ [p, p + 1, p + 2, p + 3]) ++
                (parseTemplates buf ((((be16 buf (p + 2) : Nat) : Int) - 4).toNat) (p + 4)
                  (p + 4 + (((be16 buf (p + 2) : Nat) : Int) - 4)) tbl).2,
              .flowset⟩ := by
          simp only [step, hle0, hgt, h4, hid0, ite_true, ite_false, if_true, if_false,
            if_neg, if_pos, not_false_eq_true]
          rfl
        refine ⟨f + 1, s, ?_, ?_, ?_⟩
        · rw [run_succ_more hstep]
          exact hrun
        · rw [htpl]
          simp only [installAll]
          rw [if_neg h0, if_neg h4, if_pos hL, if_pos hid0,
              show p + ((be16 buf (p + 2) : Nat) : Int)
                = p + 4 + (((be16 buf (p + 2) : Nat) : Int) - 4) from by omega,
              show len - ((be16 buf (p + 2) : Nat) : Int)
                = len - 4 - (((be16 buf (p + 2) : Nat) : Int) - 4) from by omega]
        · rw [hcnt]
          simp only [countSpec]
          rw [if_neg h0, if_neg h4, if_pos hL, if_pos hid0,
              show p + ((be16 buf (p + 2) : Nat) : Int)
                = p + 4 + (((be16 buf (p + 2) : Nat) : Int) - 4) from by omega,
              show len - ((be16 buf (p + 2) : Nat) : Int)
                = len - 4 - (((be16 buf (p + 2) : Nat) : Int) - 4) from by omega]
      · rw [if_neg hid0] at hwo
        by_cases hid255 : 255 < be16 buf p
        · rw [if_pos hid255] at hwo
          cases hlook : lookupTemplate tbl (be16 buf p) with
          | none =>
            rw [hlook] at hwo
            simp only [Bool.not_false, Bool.true_and] at hwo
            have hwf' : wfFlowSets buf fl (p + 4 + (((be16 buf (p + 2) : Nat) : Int) - 4))
                (len - 4 - (((be16 buf (p + 2) : Nat) : Int) - 4)) = true := by
              rw [show p + 4 + (((be16 buf (p + 2) : Nat) : Int) - 4)
                    = p + ((be16 buf (p + 2) : Nat) : Int) from by omega,
                  show len - 4 - (((be16 buf (p + 2) : Nat) : Int) - 4)
                    = len - ((be16 buf (p + 2) : Nat) : Int) from by omega]
              exact hwf
            have hwo' : walkOk buf false fl (p + 4 + (((be16 buf (p + 2) : Nat) : Int) - 4))
                (len - 4 - (((be16 buf (p + 2) : Nat) : Int) - 4)) tbl = true := by
              rw [show p + 4 + (((be16 buf (p + 2) : Nat) : Int) - 4)
                    = p + ((be16 buf (p + 2) : Nat) : Int) from by omega,
                  show len - 4 - (((be16 buf (p + 2) : Nat) : Int) - 4)
                    = len - ((be16 buf (p + 2) : Nat) : Int) from by omega]
              exact hwo
            obtain ⟨f, s, hrun, htpl, hcnt⟩ := ih
              (p + 4 + (((be16 buf (p + 2) : Nat) : Int) - 4))
              (len - 4 - (((be16 buf (p + 2) : Nat) : Int) - 4))
              tbl em
              (dg ++ ["Unknown template ID: " ++ Nat.repr (be16 buf p)])
              (rd ++ [p, p + 1, p + 2, p + 3])
              hwf' hwo'
            have hstep : step buf probe junk ⟨p, len, tbl, em, dg, rd, .flowset⟩ =
                .more ⟨p + 4 + (((be16 buf (p + 2) : Nat) : Int) - 4),
                  len - 4 - (((be16 buf (p + 2) : Nat) : Int) - 4),
                  tbl, em, dg ++ ["Unknown template ID: " ++ Nat.repr (be16 buf p)],
                  rd ++ [p, p + 1, p + 2, p + 3], .flowset⟩ := by
              simp only [step, hle0, hgt, h4, hid0, hid255, hlook, ite_true, ite_false,
                if_true, if_false, if_neg, if_pos, not_false_eq_true]
            refine ⟨f + 1, s, ?_, ?_, ?_⟩
            · rw [run_succ_more hstep]
              exact hrun
            · rw [htpl]
              simp only [installAll]
              rw [if_neg h0, if_neg h4, if_pos hL, if_neg hid0,
                  show p + ((be16 buf (p + 2) : Nat) : Int)
                    = p + 4 + (((be16 buf (p + 2) : Nat) : Int) - 4) from by omega,
                  show len - ((be16 buf (p + 2) : Nat) : Int)
                    = len - 4 - (((be16 buf (p + 2) : Nat) : Int) - 4) from by omega]
            · rw [hcnt]
              simp only [countSpec]
              rw [if_neg h0, if_neg h4, if_pos hL, if_neg hid0, if_pos hid255, hlook,
                  show p + ((be16 buf (p + 2) : Nat) : Int)
                    = p + 4 + (((be16 buf (p + 2) : Nat) : Int) - 4) from by omega,
                  show len - ((be16 buf (p + 2) : Nat) : Int)
                    = len - 4 - (((be16 buf (p + 2) : Nat) : Int) - 4) from by omega]
          | some fs =>
            rw [hlook] at hwo
            rw [Bool.and_eq_true] at hwo
            obtain ⟨hWdec, hwo⟩ := hwo
            have hW : 0 < recordWidth fs := of_decide_eq_true hWdec
            obtain ⟨j, em', rd', hiter, hlen'⟩ := simRecords buf probe junk
              ((((be16 buf (p + 2) : Nat) : Int) - 4).toNat)
              (p + 4) (p + 4 + (((be16 buf (p + 2) : Nat) : Int) - 4)) fs
              (p + 4) (len - 4) tbl em dg (rd ++ [p, p + 1, p + 2, p + 3])
              hW (by omega)
            have hwf' : wfFlowSets buf fl (p + 4 + (((be16 buf (p + 2) : Nat) : Int) - 4))
                ((len - 4) - ((p + 4 + (((be16 buf (p + 2) : Nat) : Int) - 4)) - (p + 4)))
                = true := by
              rw [show p + 4 + (((be16 buf (p + 2) : Nat) : Int) - 4)
                    = p + ((be16 buf (p + 2) : Nat) : Int) from by omega,
                  show (len - 4) - ((p + ((be16 buf (p + 2) : Nat) : Int)) - (p + 4))
                    = len - ((be16 buf (p + 2) : Nat) : Int) from by omega]
              exact hwf
            have hwo' : walkOk buf false fl (p + 4 + (((be16 buf (p + 2) : Nat) : Int) - 4))
                ((len - 4) - ((p + 4 + (((be16 buf (p + 2) : Nat) : Int) - 4)) - (p + 4)))
                tbl = true := by
              rw [show p + 4 + (((be16 buf (p + 2) : Nat) : Int) - 4)
                    = p + ((be16 buf (p + 2) : Nat) : Int) from by omega,
                  show (len - 4) - ((p + ((be16 buf (p + 2) : Nat) : Int)) - (p + 4))
                    = len - ((be16 buf (p + 2) : Nat) : Int) from by omega]
              exact hwo
            obtain ⟨f, s, hrun, htpl, hcnt⟩ := ih
              (p + 4 + (((be16 buf (p + 2) : Nat) : Int) - 4))
              ((len - 4) - ((p + 4 + (((be16 buf (p + 2) : Nat) : Int) - 4)) - (p + 4)))
              tbl (em ++ em') dg rd' hwf' hwo'
            have hstep : step buf probe junk ⟨p, len, tbl, em, dg, rd, .flowset⟩ =
                .more ⟨p + 4, len - 4, tbl, em, dg, rd ++ [p, p + 1, p + 2, p + 3],
                  .records (p + 4) (p + 4 + (((be16 buf (p + 2) : Nat) : Int) - 4)) fs⟩ := by
              simp only [step, hle0, hgt, h4, hid0, hid255, hlook, ite_true, ite_false,
                if_true, if_false, if_neg, if_pos, not_false_eq_true]
            refine ⟨(j + f) + 1, s, ?_, ?_, ?_⟩
            · rw [run_succ_more hstep, iterMore_run hiter f]
              exact hrun
            · rw [htpl]
              simp only [installAll]
              rw [if_neg h0, if_neg h4, if_pos hL, if_neg hid0,
                  show p + ((be16 buf (p + 2) : Nat) : Int)
                    = p + 4 + (((be16 buf (p + 2) : Nat) : Int) - 4) from by omega,
                  show len - ((be16 buf (p + 2) : Nat) : Int)
                    = (len - 4) - ((p + 4 + (((be16 buf (p + 2) : Nat) : Int) - 4)) - (p + 4))
                    from by omega]
            · rw [hcnt]
              simp only [countSpec]
              rw [if_neg h0, if_neg h4, if_pos hL, if_neg hid0, if_pos hid255, hlook]
              rw [List.length_append]
              rw [show ((p + 4 + (((be16 buf (p + 2) : Nat) : Int) - 4)) - (p + 4))
                    = ((be16 buf (p + 2) : Nat) : Int) - 4 from by omega] at hlen'
              rw [hlen']
              rw [show p + ((be16 buf (p + 2) : Nat) : Int)
                    = p + 4 + (((be16 buf (p + 2) : Nat) : Int) - 4) from by omega,
                  show len - ((be16 buf (p + 2) : Nat) : Int)
                    = (len - 4) - ((p + 4 + (((be16 buf (p + 2) : Nat) : Int) - 4)) - (p + 4))
                    from by omega]
              dsimp only
              omega
        · -- reserved ids 1..255: body skipped
          rw [if_neg hid255] at hwo
          have hwf' : wfFlowSets buf fl (p + 4 + (((be16 buf (p + 2) : Nat) : Int) - 4))
              (len - 4 - (((be16 buf (p + 2) : Nat) : Int) - 4)) = true := by
            rw [show p + 4 + (((be16 buf (p + 2) : Nat) : Int) - 4)
                  = p + ((be16 buf (p + 2) : Nat) : Int) from by omega,
                show len - 4 - (((be16 buf (p + 2) : Nat) : Int) - 4)
                  = len - ((be16 buf (p + 2) : Nat) : Int) from by omega]
            exact hwf
          have hwo' : walkOk buf false fl (p + 4 + (((be16 buf (p + 2) : Nat) : Int) - 4))
              (len - 4 - (((be16 buf (p + 2) : Nat) : Int) - 4)) tbl = true := by
            rw [show p + 4 + (((be16 buf (p + 2) : Nat) : Int) - 4)
                  = p + ((be16 buf (p + 2) : Nat) : Int) from by omega,
                show len - 4 - (((be16 buf (p + 2) : Nat) : Int) - 4)
                  = len - ((be16 buf (p + 2) : Nat) : Int) from by omega]
            exact hwo
          obtain ⟨f, s, hrun, htpl, hcnt⟩ := ih
            (p + 4 + (((be16 buf (p + 2) : Nat) : Int) - 4))
            (len - 4 - (((be16 buf (p + 2) : Nat) : Int) - 4))
            tbl em dg (rd ++ [p, p + 1, p + 2, p + 3]) hwf' hwo'
          have hstep : step buf probe junk ⟨p, len, tbl, em, dg, rd, .flowset⟩ =
              .more ⟨p + 4 + (((be16 buf (p + 2) : Nat) : Int) - 4),
                len - 4 - (((be16 buf (p + 2) : Nat) : Int) - 4),
                tbl, em, dg, rd ++ [p, p + 1, p + 2, p + 3], .flowset⟩ := by
            simp only [step, hle0, hgt, h4, hid0, hid255, ite_true, ite_false,
              if_true, if_false, if_neg, if_pos, not_false_eq_true]
          refine ⟨f + 1, s, ?_, ?_, ?_⟩
          · rw [run_succ_more hstep]
            exact hrun
          · rw [htpl]
            simp only [installAll]
            rw [if_neg h0, if_neg h4, if_pos hL, if_neg hid0,
                show p + ((be16 buf (p + 2) : Nat) : Int)
                  = p + 4 + (((be16 buf (p + 2) : Nat) : Int) - 4) from by omega,
                show len - ((be16 buf (p + 2) : Nat) : Int)
                  = len - 4 - (((be16 buf (p + 2) : Nat) : Int) - 4) from by omega]
          · rw [hcnt]
            simp only [countSpec]
            rw [if_neg h0, if_neg h4, if_pos hL, if_neg hid0, if_neg hid255,
                show p + ((be16 buf (p + 2) : Nat) : Int)
                  = p + 4 + (((be16 buf (p + 2) : Nat) : Int) - 4) from by omega,
                show len - ((be16 buf (p + 2) : Nat) : Int)
                  = len - 4 - (((be16 buf (p + 2) : Nat) : Int) - 4) from by omega]

end NFC

namespace NFC

theorem walkOk_true_imp (buf : Int → Nat) :
    ∀ (fl : Nat) (p len : Int) (tbl : TemplateTable),
      walkOk buf true fl p len tbl = true → walkOk buf false fl p len tbl = true := by
  intro fl
  induction fl with
  | zero => intro p len tbl _; rfl
  | succ fl ih =>
    intro p len tbl h
    simp only [walkOk] at h ⊢
    by_cases h0 : len = 0
    · rw [if_pos h0]
    · rw [if_neg h0] at h ⊢
      by_cases h4 : len < 4
      · rw [if_pos h4]
      · rw [if_neg h4] at h ⊢
        by_cases hL : 4 ≤ ((be16 buf (p + 2) : Nat) : Int) ∧
            ((be16 buf (p + 2) : Nat) : Int) ≤ len
        · rw [if_pos hL] at h ⊢
          by_cases hid0 : be16 buf p = 0
          · rw [if_pos hid0] at h ⊢
            exact ih _ _ _ h
          · rw [if_neg hid0] at h ⊢
            by_cases hid255 : 255 < be16 buf p
            · rw [if_pos hid255] at h ⊢
              generalize hlook : lookupTemplate tbl (be16 buf p) = o at h ⊢
              cases o with
              | none =>
                have h' : (!true && walkOk buf true fl (p + ((be16 buf (p + 2) : Nat) : Int))
                    (len - ((be16 buf (p + 2) : Nat) : Int)) tbl) = true := h
                simp at h'
              | some fs =>
                have h' : (decide (0 < recordWidth fs) && walkOk buf true fl
                    (p + ((be16 buf (p + 2) : Nat) : Int))
                    (len - ((be16 buf (p + 2) : Nat) : Int)) tbl) = true := h
                rw [Bool.and_eq_true] at h'
                show (decide (0 < recordWidth fs) && walkOk buf false fl
                    (p + ((be16 buf (p + 2) : Nat) : Int))
                    (len - ((be16 buf (p + 2) : Nat) : Int)) tbl) = true
                rw [Bool.and_eq_true]
                exact ⟨h'.1, ih _ _ _ h'.2⟩
            · rw [if_neg hid255] at h ⊢
              exact ih _ _ _ h
        · rw [if_neg hL]

/-- Claim C3 (amended, proved): for a datagram whose FlowSet structure is
well-formed (each FlowSet length at least 4 and the FlowSets exactly tiling
the bytes after the 20-byte header) and in which every data FlowSet, at the
moment it is reached, refers to a template of positive total width in the
evolving table, decoding completes and the number of records handed to the
sink equals the sum over data FlowSets `F` of `⌊(F.length - 4) / W_F⌋`
(`countSpec`), `W_F` being the width of the governing template at that
moment; the residue of fewer than `W_F` bytes yields no record. -/
theorem C3_record_count (buf : Int → Nat) (probe : String) (junk : JunkInit)
    (n : Int) (tbl : TemplateTable) (fl : Nat)
    (hwf : wfFlowSets buf fl 20 (n - 20) = true)
    (hwo : walkOk buf true fl 20 (n - 20) tbl = true) :
    ∃ (fuel : Nat) (s : Machine),
      processNetFlowV9Data buf n tbl probe junk fuel = some s ∧
      s.emitted.length = countSpec buf fl 20 (n - 20) tbl := by
  obtain ⟨fuel, s, hrun, _, hcnt⟩ := simFlowSets buf probe junk fl 20 (n - 20) tbl
    [] [] [2, 3] hwf (walkOk_true_imp buf fl 20 (n - 20) tbl hwo)
  exact ⟨fuel, s, hrun, by simpa using hcnt⟩

/-- Witness for C3: a datagram installing template 256 of width 1 and then
sending a 2-byte data FlowSet body, which yields two records. -/
theorem C3_record_count_witness :
    ∃ (fuel : Nat) (s : Machine),
      processNetFlowV9Data bufC3w 38 [] "p" junk0 fuel = some s ∧
      s.emitted.length = countSpec bufC3w 18 20 (38 - 20) [] :=
  C3_record_count bufC3w "p" junk0 38 [] 18 (by decide) (by decide)

end NFC

namespace NFC

theorem lookup_setTemplate (tbl : TemplateTable) (id i : Nat) (fs : List FieldSpec) :
    lookupTemplate (setTemplate tbl i fs) id =
      if i = id then some fs else lookupTemplate tbl id := by
  unfold lookupTemplate setTemplate
  rw [List.find?_cons]
  by_cases h : i = id
  · rw [show (i == id) = true from by simp [h], if_pos h]
    rfl
  · rw [show (i == id) = false from by simp [h], if_neg h]

theorem lookup_foldl_set :
    ∀ (recs : List (Nat × List FieldSpec)) (tbl : TemplateTable) (id : Nat),
      lookupTemplate (recs.foldl (fun t r => setTemplate t r.1 r.2) tbl) id =
        match latestDef recs id with
        | some fs => some fs
        | none => lookupTemplate tbl id := by
  intro recs
  induction recs with
  | nil => intro tbl id; rfl
  | cons r rs ih =>
    intro tbl id
    rw [List.foldl_cons, ih]
    cases hld : latestDef rs id with
    | some fs => simp [latestDef, hld]
    | none =>
      simp only [latestDef, hld]
      rw [lookup_setTemplate]
      by_cases h : r.1 = id
      · simp [h]
      · simp [h]

theorem latestDef_append :
    ∀ (a b : List (Nat × List FieldSpec)) (id : Nat),
      latestDef (a ++ b) id =
        match latestDef b id with
        | some fs => some fs
        | none => latestDef a id := by
  intro a
  induction a with
  | nil =>
    intro b id
    rw [List.nil_append]
    cases h : latestDef b id <;> simp [latestDef, h]
  | cons r rs ih =>
    intro b id
    rw [List.cons_append]
    simp only [latestDef, ih]
    cases hb : latestDef b id with
    | some fs => rfl
    | none => rfl

end NFC

namespace NFC

theorem parseTemplates_eq_fold (buf : Int → Nat) :
    ∀ (tf pf : Nat) (p : Int) (rem : Nat) (tbl : TemplateTable),
      wfTemplateBody buf tf p rem = true → rem ≤ tf → rem ≤ pf →
      (parseTemplates buf pf p (p + (rem : Int)) tbl).1 =
        (templateRecords buf tf p rem).foldl (fun t r => setTemplate t r.1 r.2) tbl := by
  intro tf
  induction tf with
  | zero =>
    intro pf p rem tbl hwf hr _
    have h0 : rem = 0 := by omega
    subst h0
    cases pf with
    | zero => rfl
    | succ pf =>
      simp only [parseTemplates, templateRecords]
      rw [if_neg (show ¬ (p < p + (((0 : Nat) : Nat) : Int)) from by omega)]
      rfl
  | succ tf ih =>
    intro pf p rem tbl hwf htf hpf
    by_cases h0 : rem = 0
    · subst h0
      cases pf with
      | zero => rfl
      | succ pf =>
        simp only [parseTemplates, templateRecords]
        rw [if_neg (show ¬ (p < p + (((0 : Nat) : Nat) : Int)) from by omega)]
        rfl
    · simp only [wfTemplateBody] at hwf
      rw [if_neg h0] at hwf
      by_cases h4 : rem < 4
      · rw [if_pos h4] at hwf; cases hwf
      rw [if_neg h4] at hwf
      by_cases hfc : 4 + 4 * be16 buf (p + 2) ≤ rem
      case neg => rw [if_neg hfc] at hwf; cases hwf
      rw [if_pos hfc] at hwf
      cases pf with
      | zero => omega
      | succ pf =>
        simp only [parseTemplates, templateRecords]
        rw [if_pos (show p < p + ((rem : Nat) : Int) from by omega),
            if_neg h0, if_neg h4, if_pos hfc]
        rw [List.foldl_cons]
        have hend : p + (rem : Int) =
            (p + 4 + 4 * ((be16 buf (p + 2) : Nat) : Int)) +
              (((rem - (4 + 4 * be16 buf (p + 2)) : Nat) : Nat) : Int) := by
          omega
        rw [hend]
        exact ih pf (p + 4 + 4 * ((be16 buf (p + 2) : Nat) : Int))
          (rem - (4 + 4 * be16 buf (p + 2)))
          (setTemplate tbl (be16 buf p) (readFields buf (p + 4) (be16 buf (p + 2))).1)
          hwf (by omega) (by omega)

end NFC

namespace NFC

theorem installAll_lookup (buf : Int → Nat) :
    ∀ (fl : Nat) (p len : Int) (tbl : TemplateTable) (id : Nat),
      wfFlowSets buf fl p len = true → wfBodies buf fl p len = true →
      lookupTemplate (installAll buf fl p len tbl) id =
        match latestDef (allTemplateRecords buf fl p len) id with
        | some fs => some fs
        | none => lookupTemplate tbl id := by
  intro fl
  induction fl with
  | zero => intro p len tbl id hwf hb; rfl
  | succ fl ih =>
    intro p len tbl id hwf hb
    simp only [wfFlowSets] at hwf
    simp only [wfBodies] at hb
    simp only [installAll, allTemplateRecords]
    by_cases h0 : len = 0
    · simp only [if_pos h0]
      rfl
    · rw [if_neg h0] at hwf hb
      simp only [if_neg h0]
      by_cases h4 : len < 4
      · rw [if_pos h4] at hwf; cases hwf
      rw [if_neg h4] at hwf hb
      simp only [if_neg h4]
      by_cases hL : 4 ≤ ((be16 buf (p + 2) : Nat) : Int) ∧
          ((be16 buf (p + 2) : Nat) : Int) ≤ len
      case neg => rw [if_neg hL] at hwf; cases hwf
      rw [if_pos hL] at hwf hb
      simp only [if_pos hL]
      rw [Bool.and_eq_true] at hb
      obtain ⟨htb0, hb'⟩ := hb
      by_cases hid0 : be16 buf p = 0
      · rw [if_pos hid0] at htb0
        simp only [if_pos hid0]
        have hIB : lookupTemplate
            (installBody buf (p + 4) (((be16 buf (p + 2) : Nat) : Int) - 4) tbl) id =
            match latestDef (templateRecords buf
                ((((be16 buf (p + 2) : Nat) : Int) - 4).toNat) (p + 4)
                ((((be16 buf (p + 2) : Nat) : Int) - 4).toNat)) id with
            | some fs => some fs
            | none => lookupTemplate tbl id := by
          unfold installBody
          rw [show (p + 4) + (((be16 buf (p + 2) : Nat) : Int) - 4)
                = (p + 4) + ((((((be16 buf (p + 2) : Nat) : Int) - 4).toNat : Nat)) : Int)
              from by omega]
          rw [parseTemplates_eq_fold buf ((((be16 buf (p + 2) : Nat) : Int) - 4).toNat)
            ((((be16 buf (p + 2) : Nat) : Int) - 4).toNat) (p + 4)
            ((((be16 buf (p + 2) : Nat) : Int) - 4).toNat) tbl htb0 le_rfl le_rfl]
          exact lookup_foldl_set _ tbl id
        rw [ih _ _ _ id hwf hb', latestDef_append]
        cases hB : latestDef (allTemplateRecords buf fl
            (p + ((be16 buf (p + 2) : Nat) : Int))
            (len - ((be16 buf (p + 2) : Nat) : Int))) id with
        | some fs => rfl
        | none => exact hIB
      · simp only [if_neg hid0]
        exact ih _ _ _ id hwf hb'

end NFC

namespace NFC

/-- Claim C4 (amended, proved): for a datagram with well-formed FlowSet
structure whose template FlowSet bodies are exactly tiled by complete
template records, and whose data FlowSets never resolve to a zero-width
template, decoding completes and the final template table binds every id to
the latest definition of that id among the datagram's template records when
there is one (insert-or-replace, no merge), and to its previous binding
otherwise — ids the datagram does not define are unchanged. -/
theorem C4_template_table (buf : Int → Nat) (probe : String) (junk : JunkInit)
    (n : Int) (tbl : TemplateTable) (fl : Nat)
    (hwf : wfFlowSets buf fl 20 (n - 20) = true)
    (hb : wfBodies buf fl 20 (n - 20) = true)
    (hwo : walkOk buf false fl 20 (n - 20) tbl = true) :
    ∃ (fuel : Nat) (s : Machine),
      processNetFlowV9Data buf n tbl probe junk fuel = some s ∧
      ∀ id, lookupTemplate s.templates id =
        match latestDef (allTemplateRecords buf fl 20 (n - 20)) id with
        | some fs => some fs
        | none => lookupTemplate tbl id := by
  obtain ⟨fuel, s, hrun, htpl, _⟩ := simFlowSets buf probe junk fl 20 (n - 20) tbl
    [] [] [2, 3] hwf hwo
  refine ⟨fuel, s, hrun, fun id => ?_⟩
  rw [htpl]
  exact installAll_lookup buf fl 20 (n - 20) tbl id hwf hb

/-- Witness for C4: a datagram whose single template FlowSet defines
template 270 twice; the final table holds the latest definition of 270 and
the pre-existing template 400 is untouched. -/
theorem C4_template_table_witness :
    ∃ (fuel : Nat) (s : Machine),
      processNetFlowV9Data bufC4w 40 tblC4w "p" junk0 fuel = some s ∧
      ∀ id, lookupTemplate s.templates id =
        match latestDef (allTemplateRecords bufC4w 20 20 (40 - 20)) id with
        | some fs => some fs
        | none => lookupTemplate tblC4w id :=
  C4_template_table bufC4w "p" junk0 40 tblC4w 20 (by decide) (by decide) (by decide)

end NFC
